import Mathlib

/-
Verification of the premiumize-api TypeScript client (megadrive/premiumize-api).

The development shallowly embeds the client's request pipeline and its helpers:
  * `src/src/util.ts`            — `obfuscateString` (log redaction),
  * `src/src/errors.ts`          — `PremiumizeError`,
  * `src/src/types.ts`           — the zod response schemas used by the claims
                                   (`AccountInfoResponse`, `ListFolderResponse`),
  * `src/unnamed/part_002`       — the current `PremiumizeClient` (constructor,
                                   `request`, `listFolder`, `accountInfo`); the
                                   older `src/src/index.ts` variant differs only
                                   by lacking the empty-api-key precondition.

JSON values are modelled by an inductive `Json`; numbers are integers, which is
exact for every numeric value the claims exercise.  The HTTP layer (axios) is
modelled as an external capability `TransportCall → TransportResult`; the
pipeline records the calls it issues and the bodies it hands to a validator, so
the "no transport call" / "validator never invoked" claims are statements about
this trace.  Thrown JavaScript errors are modelled by the inductive `Thrown`
(a `PremiumizeError` with its `internalError` payload, or a plain `Error`).
-/

namespace Premiumize

/-- A parsed JSON value (the `response.data` of an axios response).  Numbers are
modelled as integers; every numeric literal appearing in the claims is integral. -/
inductive Json where
  | null
  | bool (b : Bool)
  | num (n : Int)
  | str (s : String)
  | arr (elems : List Json)
  | obj (fields : List (String × Json))

/-- JavaScript truthiness of a JSON value (`if (response.data)` in the source). -/
def Json.truthy : Json → Bool
  | .null => false
  | .bool b => b
  | .num n => n != 0
  | .str s => s != ""
  | .arr _ => true
  | .obj _ => true

/-- Property access `j.key`: the value of the first field named `key` of an
object, `none` (JavaScript `undefined`) otherwise. -/
def Json.get : Json → String → Option Json
  | .obj fields, key => fields.lookup key
  | _, _ => none

/-- `typeof`-style name of a JSON value, used in validation issue messages. -/
def Json.typeName : Json → String
  | .null => "null"
  | .bool _ => "boolean"
  | .num _ => "number"
  | .str _ => "string"
  | .arr _ => "array"
  | .obj _ => "object"

/-- JavaScript string coercion of a primitive JSON value (as applied by the
`Error` constructor to its message argument).  Composite values never reach a
string position in the modelled code paths. -/
def Json.displayString : Json → String
  | .str s => s
  | .num n => toString n
  | .bool b => cond b "true" "false"
  | .null => "null"
  | .arr _ => ""
  | .obj _ => ""

/-- Whitespace characters recognised by JavaScript's number conversion. -/
def isJsWhitespace (c : Char) : Bool :=
  c == ' ' || c == '\t' || c == '\n' || c == '\r'

/-- Trim leading and trailing whitespace from a character list. -/
def trimChars (l : List Char) : List Char :=
  ((l.dropWhile isJsWhitespace).reverse.dropWhile isJsWhitespace).reverse

/-- Parse a non-empty all-digit character list as a natural number. -/
def parseNatDigits (cs : List Char) : Option Nat :=
  if cs.isEmpty then none
  else if cs.all Char.isDigit then
    some (cs.foldl (fun a c => a * 10 + (c.toNat - 48)) 0)
  else none

/-- JavaScript `Number(s)` on a string, restricted to the integer literals the
claims exercise: whitespace is trimmed, the empty string converts to `0`, an
optionally signed digit string converts to its value, anything else is `NaN`
(`none`). -/
def jsStringToNumber (s : String) : Option Int :=
  match trimChars s.data with
  | [] => some 0
  | '-' :: rest => (parseNatDigits rest).map (fun n => -(n : Int))
  | '+' :: rest => (parseNatDigits rest).map (fun n => (n : Int))
  | cs => (parseNatDigits cs).map (fun n => (n : Int))

/-- JavaScript `Number(v)` on a JSON value (`none` models `NaN`):
`null ↦ 0`, booleans to `0`/`1`, numbers unchanged, strings via
`jsStringToNumber`.  Array/object coercions (never produced by the service)
are conservatively mapped to `NaN`. -/
def jsNumber : Json → Option Int
  | .null => some 0
  | .bool b => some (cond b 1 0)
  | .num n => some n
  | .str s => jsStringToNumber s
  | .arr _ => none
  | .obj _ => none

/-- One structured zod validation issue: the path to the offending field and a
human-readable reason. -/
structure ZodIssue where
  path : List String
  message : String

/-- A zod schema, as a parser: the input is `none` for JavaScript `undefined`,
the output is the (possibly transformed) value, `none` when the key is to be
omitted from an object output. -/
def ZodParse : Type :=
  Option Json → Except (List ZodIssue) (Option Json)

/-- `z.string()`. -/
def zString : ZodParse := fun input =>
  match input with
  | some (Json.str s) => .ok (some (Json.str s))
  | some other => .error [⟨[], "Expected string, received " ++ other.typeName⟩]
  | none => .error [⟨[], "Required"⟩]

/-- `z.number()`. -/
def zNumber : ZodParse := fun input =>
  match input with
  | some (Json.num n) => .ok (some (Json.num n))
  | some other => .error [⟨[], "Expected number, received " ++ other.typeName⟩]
  | none => .error [⟨[], "Required"⟩]

/-- `z.boolean()`. -/
def zBool : ZodParse := fun input =>
  match input with
  | some (Json.bool b) => .ok (some (Json.bool b))
  | some other => .error [⟨[], "Expected boolean, received " ++ other.typeName⟩]
  | none => .error [⟨[], "Required"⟩]

/-- `z.coerce.number()`: apply JavaScript `Number()` to the input and fail on
`NaN` (which is what `Number(undefined)` yields for a missing field). -/
def zCoerceNumber : ZodParse := fun input =>
  match input with
  | none => .error [⟨[], "Expected number, received nan"⟩]
  | some v =>
    match jsNumber v with
    | some n => .ok (some (Json.num n))
    | none => .error [⟨[], "Expected number, received nan"⟩]

/-- `z.literal(s)` for a string literal. -/
def zLiteralStr (lit : String) : ZodParse := fun input =>
  match input with
  | some (Json.str s) =>
    if s == lit then .ok (some (Json.str s))
    else .error [⟨[], "Invalid literal value, expected " ++ lit⟩]
  | some other => .error [⟨[], "Expected string, received " ++ other.typeName⟩]
  | none => .error [⟨[], "Required"⟩]

/-- `.nullish()`: `undefined` and `null` pass through unchanged. -/
def zNullish (inner : ZodParse) : ZodParse := fun input =>
  match input with
  | none => .ok none
  | some Json.null => .ok (some Json.null)
  | some v => inner (some v)

/-- `z.object(fields)`: non-objects are rejected, unknown keys are stripped,
each declared field is parsed against the (possibly missing) value of its key,
issues are collected with the field name prefixed to their paths. -/
def zObject (fields : List (String × ZodParse)) : ZodParse := fun input =>
  match input with
  | some (Json.obj kvs) =>
    let results : List (Except (List ZodIssue) (String × Option Json)) :=
      fields.map (fun fld =>
        match fld.2 (kvs.lookup fld.1) with
        | .ok v => .ok (fld.1, v)
        | .error issues =>
          .error (issues.map (fun i => ⟨fld.1 :: i.path, i.message⟩)))
    let issues : List ZodIssue :=
      results.foldr (fun r acc =>
        match r with
        | .error is => is ++ acc
        | .ok _ => acc) []
    if issues.isEmpty then
      .ok (some (Json.obj (results.foldr (fun r acc =>
        match r with
        | .ok (k, some v) => (k, v) :: acc
        | _ => acc) [])))
    else .error issues
  | some other => .error [⟨[], "Expected object, received " ++ other.typeName⟩]
  | none => .error [⟨[], "Required"⟩]

/-- `z.array(elem)`: each element is parsed, issues are collected with the
element index prefixed to their paths. -/
def zArray (elem : ZodParse) : ZodParse := fun input =>
  match input with
  | some (Json.arr xs) =>
    let results : List (Except (List ZodIssue) Json) :=
      xs.enum.map (fun p =>
        match elem (some p.2) with
        | .ok v => .ok (v.getD Json.null)
        | .error issues =>
          .error (issues.map (fun i => ⟨toString p.1 :: i.path, i.message⟩)))
    let issues : List ZodIssue :=
      results.foldr (fun r acc =>
        match r with
        | .error is => is ++ acc
        | .ok _ => acc) []
    if issues.isEmpty then
      .ok (some (Json.arr (results.foldr (fun r acc =>
        match r with
        | .ok v => v :: acc
        | _ => acc) [])))
    else .error issues
  | some other => .error [⟨[], "Expected array, received " ++ other.typeName⟩]
  | none => .error [⟨[], "Required"⟩]

/-- `z.discriminatedUnion(key, cases)`: dispatch on the string value of the
discriminant field. -/
def zDiscriminatedUnion (discKey : String) (cases : List (String × ZodParse)) :
    ZodParse := fun input =>
  match input with
  | some (Json.obj kvs) =>
    match kvs.lookup discKey with
    | some (Json.str tag) =>
      match cases.lookup tag with
      | some p => p (some (Json.obj kvs))
      | none => .error [⟨[discKey], "Invalid discriminator value"⟩]
    | _ => .error [⟨[discKey], "Invalid discriminator value"⟩]
  | some other => .error [⟨[], "Expected object, received " ++ other.typeName⟩]
  | none => .error [⟨[], "Required"⟩]

/-- Outcome of `schema.safeParse`: either the normalized data or the structured
issue list of the `ZodError`. -/
inductive ParseResult where
  | success (data : Json)
  | failure (issues : List ZodIssue)

/-- The `SchemaValidator` capability: a zod schema viewed through `safeParse`. -/
structure Validator where
  safeParse : Json → ParseResult

/-- Package a `ZodParse` as a `Validator` (top-level input is always defined). -/
def mkValidator (p : ZodParse) : Validator :=
  ⟨fun j =>
    match p (some j) with
    | .ok v => ParseResult.success (v.getD Json.null)
    | .error issues => ParseResult.failure issues⟩

/-- Render one issue as text, path first. -/
def renderIssue (i : ZodIssue) : String :=
  if i.path.isEmpty then i.message
  else String.intercalate "." i.path ++ ": " ++ i.message

/-- The `message` of a `ZodError`: a textual serialization of its issue list. -/
def issuesMessage (issues : List ZodIssue) : String :=
  String.intercalate "; " (issues.map renderIssue)

/-- `AccountInfoResponse` of `src/src/types.ts` (lines 280–285): four
`z.coerce.number()` fields. -/
def AccountInfoResponse : Validator :=
  mkValidator (zObject
    [("customer_id", zCoerceNumber),
     ("premium_until", zCoerceNumber),
     ("limit_used", zCoerceNumber),
     ("space_used", zCoerceNumber)])

/-- `ItemFolder` of `src/src/types.ts`. -/
def ItemFolderZ : ZodParse :=
  zObject [("id", zString), ("name", zString), ("type", zLiteralStr "folder")]

/-- `ItemFile` of `src/src/types.ts`. -/
def ItemFileZ : ZodParse :=
  zObject
    [("id", zString), ("name", zString), ("size", zNullish zNumber),
     ("crc32", zNullish zString), ("created_at", zNullish zNumber),
     ("mime_type", zNullish zString), ("link", zNullish zString),
     ("directlink", zNullish zString), ("stream_link", zNullish zString),
     ("unpackable", zNullish zBool), ("type", zLiteralStr "file")]

/-- `ListFolderResponse` of `src/src/types.ts` (lines 91–104). -/
def ListFolderResponse : Validator :=
  mkValidator (zObject
    [("content", zArray (zDiscriminatedUnion "type"
        [("folder", ItemFolderZ), ("file", ItemFileZ)])),
     ("name", zString), ("parent_id", zString), ("folder_id", zString),
     ("breadcrumbs", zNullish (zArray (zObject
        [("id", zString), ("name", zString)])))])

/-- The payload stored in a `PremiumizeError`'s `internalError` field: either a
parsed JSON body (API-level error) or the underlying axios error (transport
fault).  A parsed JSON body is never an `Error` instance, so the two are
distinguishable by a caller, as they are here by the constructor. -/
inductive ErrPayload where
  | jsonBody (body : Json)
  | axiosFault (message : String)

/-- A thrown JavaScript error, as observable by a caller:
`premiumizeError` is the `PremiumizeError` class of `src/src/errors.ts`
(lines 8–16) with its `message` and `internalError`; `jsError` is a plain
`Error` carrying only a message. -/
inductive Thrown where
  | premiumizeError (message : String) (internalError : ErrPayload)
  | jsError (message : String)

/-- `internalError` as a caller reads it off a thrown error: present exactly on
`PremiumizeError` instances. -/
def Thrown.internalError : Thrown → Option ErrPayload
  | .premiumizeError _ p => some p
  | .jsError _ => none

/-- An error reaching the `catch` block of `request`: either an axios error
(`axios.isAxiosError(error)` is `true`) or a rethrown JavaScript error
(`PremiumizeError` or plain `Error`, for which `isAxiosError` is `false`). -/
inductive TryError where
  | axios (message : String)
  | thrown (e : Thrown)

/-- The `catch` handler of `request` (`src/unnamed/part_002` lines 129–135,
identical in `src/src/index.ts` lines 85–94): wrap axios errors in a
`PremiumizeError`, rethrow everything else unchanged. -/
def classifyCaught : TryError → Thrown
  | .axios msg =>
    .premiumizeError ("API request failed: " ++ msg) (.axiosFault msg)
  | .thrown e => e

/-- The failure taxonomy of the specification (§7). -/
inductive ErrorKind where
  | configuration
  | service
  | validation
  | transport
deriving DecidableEq

/-- The kind of a thrown error as a caller can compute it from the error value
alone: `PremiumizeError` with a JSON-body payload is a Service Error, with an
axios payload a Transport Error; a plain `Error` is the fixed-message
configuration failure or else a validation failure. -/
def Thrown.errorKind : Thrown → ErrorKind
  | .premiumizeError _ (.jsonBody _) => .service
  | .premiumizeError _ (.axiosFault _) => .transport
  | .jsError m => if m = "API key is required" then .configuration else .validation

/-- HTTP method of a request (`"get" | "post"` in the source). -/
inductive HttpMethod where
  | get
  | post
deriving DecidableEq

/-- One call handed to the transport capability: method, endpoint path and the
serialized query-parameter mapping (credential included). -/
structure TransportCall where
  method : HttpMethod
  endpoint : String
  params : List (String × String)

/-- An axios response as seen by `request`: HTTP status and parsed body. -/
structure AxiosResponse where
  status : Int
  data : Json

/-- Result of the transport capability: a response, or a transport-level fault
(network error, timeout, …) carrying the axios error message. -/
inductive TransportResult where
  | ok (response : AxiosResponse)
  | fault (message : String)

/-- A value of a JavaScript parameter object: a key can be present with
`undefined` (e.g. `{ id: opts.id }` when `opts.id` was not given). -/
inductive JsParam where
  | undef
  | val (v : Json)

/-- Lift an optional value into a parameter-object slot. -/
def JsParam.ofOption : Option Json → JsParam
  | none => .undef
  | some v => .val v

/-- JavaScript object spread `{...base, ...ext}`: keys of `base` in order (with
the value from `ext` when `ext` also has the key), then the new keys of `ext`. -/
def jsSpread (base ext : List (String × JsParam)) : List (String × JsParam) :=
  base.map (fun kv =>
    match ext.find? (fun kv2 => kv2.1 == kv.1) with
    | some kv2 => kv2
    | none => kv)
  ++ ext.filter (fun kv2 => base.all (fun kv => kv.1 != kv2.1))

/-- axios query-parameter serialization (`buildURL`): entries whose value is
`null` or `undefined` are omitted entirely, arrays expand to repeated
`key[]` entries, other primitives are stringified. -/
def serializeParams : List (String × JsParam) → List (String × String)
  | [] => []
  | (_, JsParam.undef) :: rest => serializeParams rest
  | (_, JsParam.val Json.null) :: rest => serializeParams rest
  | (k, JsParam.val (Json.arr xs)) :: rest =>
    xs.map (fun v => (k ++ "[]", v.displayString)) ++ serializeParams rest
  | (k, JsParam.val v) :: rest => (k, v.displayString) :: serializeParams rest

/-- `PremiumizeConfig` of `src/src/types.ts` (lines 6–11); optional fields are
`none` when the key is absent. -/
structure PremiumizeConfig where
  apiKey : String
  baseUrl : Option String
  verboseLogging : Option Bool
  obfuscateApiKeysInLogs : Option Bool

/-- The client instance state: the private `readonly apiKey`, the frozen
`config`, and the two behavioral flags. -/
structure PremiumizeClient where
  apiKey : String
  config : PremiumizeConfig
  verboseLogging : Bool
  obfuscateApiKeysInLogs : Bool

/-- The default base URL of the service. -/
def defaultBaseUrl : String := "https://www.premiumize.me/api"

/-- The `PremiumizeClient` constructor (`src/unnamed/part_002` lines 49–74):
the raw key is moved into the private field, `config.apiKey` is scrubbed to the
empty string, the base URL default is applied, and the resulting config is
frozen (`Object.freeze`).  The `console.info`/`console.warn` diagnostics are
side effects without data flow and are not modelled. -/
def PremiumizeClient.ofConfig (config : PremiumizeConfig) : PremiumizeClient :=
  let apiKey := config.apiKey
  let scrubbed := { config with apiKey := "" }
  let frozen := { scrubbed with baseUrl := some (scrubbed.baseUrl.getD defaultBaseUrl) }
  { apiKey := apiKey
    config := frozen
    verboseLogging := frozen.verboseLogging.getD false
    obfuscateApiKeysInLogs := frozen.obfuscateApiKeysInLogs.getD true }

/-- The `RequestArguments` of the source: endpoint, parameter object, optional
zod schema, optional method. -/
structure RequestArguments where
  endpoint : String
  params : List (String × JsParam)
  schema : Option Validator
  method : Option HttpMethod

/-- The observable outcome of one `request` invocation: the settled result (a
value or the thrown error), the transport calls issued, and the bodies a
schema's `safeParse` was invoked on. -/
structure PipelineOutcome where
  result : Except Thrown Json
  transportCalls : List TransportCall
  validated : List Json

/-- `response.data.status === "error"`: strict equality against a string is
true exactly when the value is that string. -/
def isErrorStatus (body : Json) : Bool :=
  match body.get "status" with
  | some (Json.str s) => s == "error"
  | _ => false

/-- `response.data.message || "API request failed"`, string-coerced by the
`Error` constructor. -/
def serviceMessage (body : Json) : String :=
  match body.get "message" with
  | some m => if m.truthy then m.displayString else "API request failed"
  | none => "API request failed"

/-- `PremiumizeClient.request` (`src/unnamed/part_002` lines 76–136; the
`src/src/index.ts` variant at lines 40–95 is identical except that it lacks the
empty-api-key precondition).  Steps: fail fast on an empty key; default the
method to GET; merge the credential under `apikey` with the operation
parameters and serialize them for the wire; dispatch to the transport; on a
fault, classify through the catch handler; on a response, detect an API-level
error body, then run the schema if one was supplied, returning its parsed data
on success and throwing a validation `Error` on failure; with no schema return
the raw body.  Verbose logging (lines 85 and 106–112) is a best-effort side
effect with no data flow into the result and is not modelled. -/
def PremiumizeClient.request (c : PremiumizeClient)
    (transport : TransportCall → TransportResult)
    (opts : RequestArguments) : PipelineOutcome :=
  if c.apiKey = "" then
    { result := Except.error (Thrown.jsError "API key is required")
      transportCalls := []
      validated := [] }
  else
    let method := opts.method.getD HttpMethod.get
    let merged := jsSpread [("apikey", JsParam.val (Json.str c.apiKey))] opts.params
    let call : TransportCall :=
      { method := method, endpoint := opts.endpoint, params := serializeParams merged }
    match transport call with
    | TransportResult.fault msg =>
      { result := Except.error (classifyCaught (TryError.axios msg))
        transportCalls := [call]
        validated := [] }
    | TransportResult.ok response =>
      if response.data.truthy && isErrorStatus response.data then
        { result := Except.error (classifyCaught (TryError.thrown
            (Thrown.premiumizeError (serviceMessage response.data)
              (ErrPayload.jsonBody response.data))))
          transportCalls := [call]
          validated := [] }
      else
        match opts.schema with
        | some schema =>
          match schema.safeParse response.data with
          | ParseResult.success data =>
            { result := Except.ok data
              transportCalls := [call]
              validated := [response.data] }
          | ParseResult.failure issues =>
            { result := Except.error (classifyCaught (TryError.thrown
                (Thrown.jsError ("API response validation failed: " ++ issuesMessage issues))))
              transportCalls := [call]
              validated := [response.data] }
        | none =>
          { result := Except.ok response.data
            transportCalls := [call]
            validated := [] }

/-- Explicit-state embedding of the `request` method: the source method assigns
no instance field (and `this.config` is frozen), so the post-state is the
pre-state. -/
def PremiumizeClient.requestSt (c : PremiumizeClient)
    (transport : TransportCall → TransportResult)
    (opts : RequestArguments) : PipelineOutcome × PremiumizeClient :=
  (c.request transport opts, c)

/-- `ListFolderRequest` as a caller supplies it (`id` and `includebreadcrumbs`
optional). -/
structure ListFolderRequest where
  id : Option String
  includebreadcrumbs : Option Bool

/-- `PremiumizeClient.listFolder` (`src/unnamed/part_002` lines 138–147): a GET
to `/folder/list` with the two optional fields mapped into the parameter object
(present with `undefined` when absent), validated by `ListFolderResponse`. -/
def PremiumizeClient.listFolder (c : PremiumizeClient)
    (transport : TransportCall → TransportResult)
    (opts : ListFolderRequest) : PipelineOutcome :=
  c.request transport
    { endpoint := "/folder/list"
      params :=
        [("id", JsParam.ofOption (opts.id.map Json.str)),
         ("includebreadcrumbs", JsParam.ofOption (opts.includebreadcrumbs.map Json.bool))]
      schema := some ListFolderResponse
      method := none }

/-- `PremiumizeClient.accountInfo` (`src/unnamed/part_002` lines 299–305): a
GET to `/account/info` with no operation parameters, validated by
`AccountInfoResponse`. -/
def PremiumizeClient.accountInfo (c : PremiumizeClient)
    (transport : TransportCall → TransportResult) : PipelineOutcome :=
  c.request transport
    { endpoint := "/account/info"
      params := []
      schema := some AccountInfoResponse
      method := none }

/-- ECMAScript slice-bound clamping: a negative index counts from the end
(clamped at 0), a non-negative one is clamped at the length. -/
def jsSliceBound (len : Nat) (i : Int) : Nat :=
  if i < 0 then ((len : Int) + i).toNat else min i.toNat len

/-- JavaScript `s.slice(start, stop)` on characters. -/
def jsSlice (s : String) (start stop : Int) : String :=
  let b := jsSliceBound s.length start
  let e := jsSliceBound s.length stop
  String.mk ((s.data.drop b).take (e - b))

/-- JavaScript `s.slice(start)` (the end bound defaults to the length). -/
def jsSliceFrom (s : String) (start : Int) : String :=
  jsSlice s start (s.length : Int)

/-- `obfuscateString` of `src/src/util.ts` (lines 1–4): reveal
`Math.floor(s.length * percentToHide)` characters at each end around a literal
`"..."`.  The TypeScript default for `percentToHide` is `0.5`; the fraction is
modelled as a rational, exact for every fraction the claims exercise. -/
def obfuscateString (s : String) (percentToHide : ℚ) : String :=
  let hideLength : Int := ⌊(s.length : ℚ) * percentToHide⌋
  jsSlice s 0 hideLength ++ "..." ++ jsSliceFrom s (-hideLength)

/-- The transport call `request` builds for a client and request arguments. -/
def requestCall (c : PremiumizeClient) (opts : RequestArguments) : TransportCall :=
  { method := opts.method.getD HttpMethod.get
    endpoint := opts.endpoint
    params := serializeParams
      (jsSpread [("apikey", JsParam.val (Json.str c.apiKey))] opts.params) }

/-- The `failureKind` a caller observes on a settled pipeline outcome. -/
def PipelineOutcome.failureKind (o : PipelineOutcome) : Option ErrorKind :=
  match o.result with
  | .error e => some e.errorKind
  | .ok _ => none

/-- The `internalError` payload a caller observes on a settled failure. -/
def PipelineOutcome.errorPayload (o : PipelineOutcome) : Option ErrPayload :=
  match o.result with
  | .error e => e.internalError
  | .ok _ => none

/-- Test fixture: the configuration used by the repository test suite. -/
def testConfig : PremiumizeConfig :=
  { apiKey := "test-api-key", baseUrl := none
    verboseLogging := none, obfuscateApiKeysInLogs := none }

/-- Test fixture: a constructed client with a non-empty key. -/
def testClient : PremiumizeClient := PremiumizeClient.ofConfig testConfig

/-- Test fixture: a client constructed with an empty credential. -/
def emptyKeyClient : PremiumizeClient :=
  PremiumizeClient.ofConfig
    { apiKey := "", baseUrl := none, verboseLogging := none, obfuscateApiKeysInLogs := none }

/-- Test fixture: the API-level error body of the repository test suite. -/
def errorBody : Json :=
  Json.obj [("status", Json.str "error"), ("message", Json.str "Invalid API key")]

/-- Test fixture: an `/account/info` body whose `customer_id` is a numeric
string, the other fields plain numbers. -/
def rawAccountBody : Json :=
  Json.obj [("customer_id", Json.str "12345"), ("premium_until", Json.num 1640995200),
            ("limit_used", Json.num 0), ("space_used", Json.num 1073741824)]

/-- Test fixture: `rawAccountBody` after schema coercion. -/
def normalizedAccountBody : Json :=
  Json.obj [("customer_id", Json.num 12345), ("premium_until", Json.num 1640995200),
            ("limit_used", Json.num 0), ("space_used", Json.num 1073741824)]

/-- Test fixture: a body the account schema rejects. -/
def badAccountBody : Json := Json.obj [("customer_id", Json.str "abc")]

/-- Test fixture: the issues the account schema reports on `badAccountBody`. -/
def accountIssues : List ZodIssue :=
  [⟨["customer_id"], "Expected number, received nan"⟩,
   ⟨["premium_until"], "Expected number, received nan"⟩,
   ⟨["limit_used"], "Expected number, received nan"⟩,
   ⟨["space_used"], "Expected number, received nan"⟩]

/-- Test fixture: the request arguments `accountInfo` feeds to `request`. -/
def accountArgs : RequestArguments :=
  { endpoint := "/account/info", params := [], schema := some AccountInfoResponse, method := none }

/-- The serialized form of the optional `includebreadcrumbs` parameter. -/
def breadcrumbParams : Option Bool → List (String × String)
  | none => []
  | some bb => [("includebreadcrumbs", cond bb "true" "false")]

lemma request_empty_key (c : PremiumizeClient) (t : TransportCall → TransportResult)
    (opts : RequestArguments) (hk : c.apiKey = "") :
    c.request t opts =
      ⟨Except.error (Thrown.jsError "API key is required"), [], []⟩ := by
  unfold PremiumizeClient.request
  rw [if_pos hk]

lemma request_fault (c : PremiumizeClient) (opts : RequestArguments) (msg : String)
    (hk : c.apiKey ≠ "") :
    c.request (fun _ => TransportResult.fault msg) opts =
      ⟨Except.error (classifyCaught (TryError.axios msg)), [requestCall c opts], []⟩ := by
  unfold PremiumizeClient.request requestCall
  rw [if_neg hk]

lemma request_service_error (c : PremiumizeClient) (opts : RequestArguments)
    (status : Int) (body : Json) (hk : c.apiKey ≠ "")
    (ht : body.truthy = true) (hs : isErrorStatus body = true) :
    c.request (fun _ => TransportResult.ok ⟨status, body⟩) opts =
      ⟨Except.error (Thrown.premiumizeError (serviceMessage body) (ErrPayload.jsonBody body)),
       [requestCall c opts], []⟩ := by
  unfold PremiumizeClient.request requestCall
  rw [if_neg hk]
  simp only [ht, hs, Bool.and_self, if_true]
  rfl

lemma request_parse_success (c : PremiumizeClient) (opts : RequestArguments)
    (status : Int) (body : Json) (schema : Validator) (v : Json) (hk : c.apiKey ≠ "")
    (hne : (body.truthy && isErrorStatus body) = false)
    (hsch : opts.schema = some schema)
    (hp : schema.safeParse body = ParseResult.success v) :
    c.request (fun _ => TransportResult.ok ⟨status, body⟩) opts =
      ⟨Except.ok v, [requestCall c opts], [body]⟩ := by
  unfold PremiumizeClient.request requestCall
  rw [if_neg hk]
  simp only [hne, if_false, hsch, hp]
  rfl

lemma request_parse_failure (c : PremiumizeClient) (opts : RequestArguments)
    (status : Int) (body : Json) (schema : Validator) (issues : List ZodIssue)
    (hk : c.apiKey ≠ "")
    (hne : (body.truthy && isErrorStatus body) = false)
    (hsch : opts.schema = some schema)
    (hp : schema.safeParse body = ParseResult.failure issues) :
    c.request (fun _ => TransportResult.ok ⟨status, body⟩) opts =
      ⟨Except.error (Thrown.jsError ("API response validation failed: " ++ issuesMessage issues)),
       [requestCall c opts], [body]⟩ := by
  unfold PremiumizeClient.request requestCall
  rw [if_neg hk]
  simp only [hne, if_false, hsch, hp]
  rfl

lemma request_transportCalls (c : PremiumizeClient) (t : TransportCall → TransportResult)
    (opts : RequestArguments) (hk : c.apiKey ≠ "") :
    (c.request t opts).transportCalls = [requestCall c opts] := by
  unfold PremiumizeClient.request requestCall
  rw [if_neg hk]
  simp only []
  split
  · rfl
  · split
    · rfl
    · split
      · split
        · rfl
        · rfl
      · rfl

lemma string_length_append (a b : String) : (a ++ b).length = a.length + b.length := by
  cases a
  cases b
  simp [String.length, String.append]

lemma string_ne_empty_length {s : String} (h : s ≠ "") : s.length ≠ 0 := by
  intro h0
  apply h
  cases s with
  | mk data =>
    cases data with
    | nil => rfl
    | cons a l => simp [String.length] at h0

lemma floor_half (n : Nat) : ⌊(n : ℚ) * (1/2)⌋ = ((n / 2 : Nat) : Int) := by
  rw [mul_one_div]
  rw [show ((n : ℚ) = ((n : Int) : ℚ)) by push_cast; ring]
  rw [show ((2 : ℚ) = ((2 : Nat) : ℚ)) by push_cast; ring]
  rw [Rat.floor_intCast_div_natCast]
  omega

lemma obfuscate_eq_of_floor (s : String) (p : ℚ) (h : Nat)
    (hf : ⌊(s.length : ℚ) * p⌋ = (h : Int)) :
    obfuscateString s p
      = String.mk (s.data.take h) ++ "..."
        ++ String.mk (if h = 0 then s.data else s.data.drop (s.length - h)) := by
  have e1 : obfuscateString s p
      = jsSlice s 0 (h : Int) ++ "..." ++ jsSliceFrom s (-(h : Int)) := by
    show jsSlice s 0 ⌊(s.length : ℚ) * p⌋ ++ "..."
        ++ jsSliceFrom s (-⌊(s.length : ℚ) * p⌋) = _
    rw [hf]
  rw [e1]
  have hA : jsSlice s 0 (h : Int) = String.mk (s.data.take h) := by
    unfold jsSlice jsSliceBound
    have h0 : ¬((0 : Int) < 0) := by omega
    have h1 : ¬((h : Int) < 0) := by omega
    rw [if_neg h0, if_neg h1]
    simp only [Int.toNat_zero, Int.toNat_natCast, Nat.zero_min, List.drop_zero,
      Nat.sub_zero, min_zero]
    congr 1
    rw [List.take_eq_take]
    have : s.data.length = s.length := rfl
    omega
  have hB : jsSliceFrom s (-(h : Int))
      = String.mk (if h = 0 then s.data else s.data.drop (s.length - h)) := by
    unfold jsSliceFrom jsSlice jsSliceBound
    have hlen : s.data.length = s.length := rfl
    by_cases hz : h = 0
    · subst hz
      have h0 : ¬(-((0 : Nat) : Int) < 0) := by omega
      have h1 : ¬((s.length : Int) < 0) := by omega
      rw [if_neg h0, if_neg h1]
      simp only [if_pos rfl]
      congr 1
      have : ((-((0:Nat):Int)).toNat) = 0 := by omega
      rw [this]
      simp only [Nat.zero_min, List.drop_zero, Nat.sub_zero, Int.toNat_natCast,
        min_self]
      rw [if_pos trivial, show s.length = s.data.length from hlen.symm]
      exact List.take_length s.data
    · have hpos : 0 < h := Nat.pos_of_ne_zero hz
      have h0 : (-((h : Nat) : Int) < 0) := by omega
      have h1 : ¬((s.length : Int) < 0) := by omega
      rw [if_pos h0, if_neg h1]
      rw [if_neg hz]
      have hb : ((s.length : Int) + -((h : Nat) : Int)).toNat = s.length - h := by
        omega
      rw [hb]
      simp only [Int.toNat_natCast, min_self]
      congr 1
      apply List.take_of_length_le
      rw [List.length_drop, hlen]
  rw [hA, hB]

lemma obfuscate_half_length (s : String) :
    (obfuscateString s (1/2)).length
      = s.length / 2 + 3 + (if s.length / 2 = 0 then s.length else s.length / 2) := by
  rw [obfuscate_eq_of_floor s (1/2) (s.length / 2) (floor_half s.length)]
  rw [string_length_append, string_length_append]
  have hlen : s.data.length = s.length := rfl
  have h3 : ("..." : String).length = 3 := rfl
  have htk : (String.mk (s.data.take (s.length / 2))).length = s.length / 2 := by
    show (s.data.take (s.length / 2)).length = s.length / 2
    rw [List.length_take]
    omega
  rw [h3, htk]
  by_cases hz : s.length / 2 = 0
  · rw [if_pos hz, if_pos hz]
  · rw [if_neg hz, if_neg hz]
    show _ + _ + (s.data.drop (s.length - s.length / 2)).length = _
    rw [List.length_drop, hlen]
    omega

lemma validation_message_ne_config (m : String) :
    ("API response validation failed: " ++ m) ≠ "API key is required" := by
  intro h
  have hlen := congrArg String.length h
  rw [string_length_append] at hlen
  have h1 : ("API response validation failed: " : String).length = 32 := rfl
  have h2 : ("API key is required" : String).length = 19 := rfl
  omega

lemma errorKind_validation (m : String) :
    (Thrown.jsError ("API response validation failed: " ++ m)).errorKind
      = ErrorKind.validation := by
  show (if ("API response validation failed: " ++ m) = "API key is required" then
      ErrorKind.configuration else ErrorKind.validation) = ErrorKind.validation
  rw [if_neg (validation_message_ne_config m)]

/-- C1: a response body that is truthy and has `status = "error"` makes the
pipeline fail with a Service Error — the `PremiumizeError` carrying the body
message and the raw body — regardless of the HTTP status code, and the schema
validator is never invoked on that body. -/
theorem c1_error_body_is_service_error_and_validator_skipped
    (c : PremiumizeClient) (opts : RequestArguments) (status : Int) (body : Json)
    (hk : c.apiKey ≠ "") (ht : body.truthy = true)
    (hs : body.get "status" = some (Json.str "error")) :
    (c.request (fun _ => TransportResult.ok ⟨status, body⟩) opts).result
      = Except.error (Thrown.premiumizeError (serviceMessage body) (ErrPayload.jsonBody body))
    ∧ (c.request (fun _ => TransportResult.ok ⟨status, body⟩) opts).validated = [] := by
  have hse : isErrorStatus body = true := by
    unfold isErrorStatus
    rw [hs]
    simp
  rw [request_service_error c opts status body hk ht hse]
  exact ⟨rfl, rfl⟩

/-- Witness for C1 at the repository test fixture (HTTP status 400). -/
theorem c1_witness :
    testClient.apiKey ≠ "" ∧ errorBody.truthy = true
    ∧ errorBody.get "status" = some (Json.str "error")
    ∧ ((testClient.request (fun _ => TransportResult.ok ⟨400, errorBody⟩) accountArgs).result
        = Except.error (Thrown.premiumizeError (serviceMessage errorBody)
            (ErrPayload.jsonBody errorBody))
      ∧ (testClient.request (fun _ => TransportResult.ok ⟨400, errorBody⟩) accountArgs).validated
        = []) :=
  ⟨by decide, by rfl, by rfl,
   c1_error_body_is_service_error_and_validator_skipped testClient accountArgs 400 errorBody
     (by decide) (by rfl) (by rfl)⟩

/-- C2: with an empty credential the pipeline fails at once with the fixed
configuration error, a plain `Error` whose kind differs from all three runtime
kinds, and no transport call is issued. -/
theorem c2_empty_api_key_fails_before_transport
    (c : PremiumizeClient) (transport : TransportCall → TransportResult)
    (opts : RequestArguments) (hk : c.apiKey = "") :
    (c.request transport opts).result = Except.error (Thrown.jsError "API key is required")
    ∧ (c.request transport opts).transportCalls = []
    ∧ (Thrown.jsError "API key is required").errorKind = ErrorKind.configuration
    ∧ ErrorKind.configuration ≠ ErrorKind.service
    ∧ ErrorKind.configuration ≠ ErrorKind.validation
    ∧ ErrorKind.configuration ≠ ErrorKind.transport := by
  rw [request_empty_key c transport opts hk]
  exact ⟨rfl, rfl, by decide, by decide, by decide, by decide⟩

/-- Witness for C2 at a concrete empty-key client and stub transport. -/
theorem c2_witness :
    emptyKeyClient.apiKey = ""
    ∧ ((emptyKeyClient.request (fun _ => TransportResult.ok ⟨200, errorBody⟩) accountArgs).result
        = Except.error (Thrown.jsError "API key is required")
      ∧ (emptyKeyClient.request (fun _ => TransportResult.ok ⟨200, errorBody⟩)
          accountArgs).transportCalls = []
      ∧ (Thrown.jsError "API key is required").errorKind = ErrorKind.configuration
      ∧ ErrorKind.configuration ≠ ErrorKind.service
      ∧ ErrorKind.configuration ≠ ErrorKind.validation
      ∧ ErrorKind.configuration ≠ ErrorKind.transport) :=
  ⟨by rfl,
   c2_empty_api_key_fails_before_transport emptyKeyClient
     (fun _ => TransportResult.ok ⟨200, errorBody⟩) accountArgs (by rfl)⟩

/-- C3: when a validator is declared and both the error check and the
validation pass, the pipeline returns exactly the validator's normalized
output; concretely, `accountInfo` coerces a string `customer_id` to a number,
so the returned value differs from the raw body. -/
theorem c3_validator_normalized_output_returned :
    (∀ (c : PremiumizeClient) (opts : RequestArguments) (status : Int) (body : Json)
        (schema : Validator) (v : Json),
      c.apiKey ≠ "" → opts.schema = some schema →
      (body.truthy && isErrorStatus body) = false →
      schema.safeParse body = ParseResult.success v →
      (c.request (fun _ => TransportResult.ok ⟨status, body⟩) opts).result = Except.ok v)
    ∧ (testClient.accountInfo (fun _ => TransportResult.ok ⟨200, rawAccountBody⟩)).result
        = Except.ok normalizedAccountBody
    ∧ normalizedAccountBody ≠ rawAccountBody := by
  refine ⟨?_, by rfl, ?_⟩
  · intro c opts status body schema v hk hsch hne hp
    rw [request_parse_success c opts status body schema v hk hne hsch hp]
  · intro hcontra
    simp [normalizedAccountBody, rawAccountBody] at hcontra

/-- Witness for C3 at the account-info fixture. -/
theorem c3_witness :
    testClient.apiKey ≠ "" ∧ accountArgs.schema = some AccountInfoResponse
    ∧ (rawAccountBody.truthy && isErrorStatus rawAccountBody) = false
    ∧ AccountInfoResponse.safeParse rawAccountBody = ParseResult.success normalizedAccountBody
    ∧ (testClient.request (fun _ => TransportResult.ok ⟨200, rawAccountBody⟩) accountArgs).result
        = Except.ok normalizedAccountBody :=
  ⟨by decide, by rfl, by rfl, by rfl,
   c3_validator_normalized_output_returned.1 testClient accountArgs 200 rawAccountBody
     AccountInfoResponse normalizedAccountBody (by decide) (by rfl) (by rfl) (by rfl)⟩

/-- Counterexample to C4 as stated: at reveal fraction `1/5 < 1` the redactor
returns the non-empty input `"a...e"` unchanged. -/
theorem c4_counterexample_reveal_fraction_identity :
    "a...e" ≠ "" ∧ (1/5 : ℚ) < 1 ∧ obfuscateString "a...e" (1/5) = "a...e" := by
  refine ⟨by decide, by norm_num, ?_⟩
  show jsSlice _ 0 ⌊(5 : ℚ) * (1/5)⌋ ++ "..." ++ jsSliceFrom _ (-⌊(5 : ℚ) * (1/5)⌋) = _
  rw [show ⌊(5 : ℚ) * (1/5)⌋ = 1 by norm_num]
  rfl

/-- C4 amended: at the TypeScript default fraction `0.5` the redactor never
returns a non-empty input unchanged, and for inputs shorter than 4 characters
it is well defined (no negative-length slice), returning a string of the
expected total length. -/
theorem c4_amended_default_half_redacts (s : String) :
    (s ≠ "" → obfuscateString s (1/2) ≠ s)
    ∧ (s.length < 4 →
        (obfuscateString s (1/2)).length = if s.length ≤ 1 then s.length + 3 else 5) := by
  have hl := obfuscate_half_length s
  constructor
  · intro hne hcontra
    have hlen : (obfuscateString s (1/2)).length = s.length := by rw [hcontra]
    rw [hl] at hlen
    have hpos : s.length ≠ 0 := string_ne_empty_length hne
    split_ifs at hlen <;> omega
  · intro h4
    rw [hl]
    split_ifs <;> omega

/-- Witness for C4 amended, at a 12-character and a 3-character secret. -/
theorem c4_witness :
    ("test-api-key" ≠ "" ∧ obfuscateString "test-api-key" (1/2) ≠ "test-api-key")
    ∧ ("abc".length < 4
      ∧ (obfuscateString "abc" (1/2)).length
          = if "abc".length ≤ 1 then "abc".length + 3 else 5) :=
  ⟨⟨by decide, (c4_amended_default_half_redacts "test-api-key").1 (by decide)⟩,
   ⟨by decide, (c4_amended_default_half_redacts "abc").2 (by decide)⟩⟩

/-- C5: the three runtime failure kinds are produced one-per-trigger and are
mutually exclusive: a transport fault yields a Transport-kind
`PremiumizeError` (axios payload), an error body a Service-kind
`PremiumizeError` (JSON payload), a schema rejection a Validation-kind plain
`Error`, and the caller-computable `errorKind` discriminator separates the
three pairwise-distinct kinds. -/
theorem c5_failure_kinds_mutually_distinguishable
    (c : PremiumizeClient) (opts : RequestArguments) (status : Int)
    (hk : c.apiKey ≠ "") :
    (∀ msg, (c.request (fun _ => TransportResult.fault msg) opts).result
        = Except.error (Thrown.premiumizeError ("API request failed: " ++ msg)
            (ErrPayload.axiosFault msg))
      ∧ (Thrown.premiumizeError ("API request failed: " ++ msg)
          (ErrPayload.axiosFault msg)).errorKind = ErrorKind.transport)
    ∧ (∀ body, body.truthy = true → body.get "status" = some (Json.str "error") →
        (c.request (fun _ => TransportResult.ok ⟨status, body⟩) opts).result
          = Except.error (Thrown.premiumizeError (serviceMessage body)
              (ErrPayload.jsonBody body))
      ∧ (Thrown.premiumizeError (serviceMessage body)
          (ErrPayload.jsonBody body)).errorKind = ErrorKind.service)
    ∧ (∀ (body : Json) (schema : Validator) (issues : List ZodIssue),
        opts.schema = some schema →
        (body.truthy && isErrorStatus body) = false →
        schema.safeParse body = ParseResult.failure issues →
        (c.request (fun _ => TransportResult.ok ⟨status, body⟩) opts).result
          = Except.error (Thrown.jsError
              ("API response validation failed: " ++ issuesMessage issues))
      ∧ (Thrown.jsError ("API response validation failed: " ++ issuesMessage issues)).errorKind
          = ErrorKind.validation)
    ∧ ErrorKind.service ≠ ErrorKind.validation
    ∧ ErrorKind.service ≠ ErrorKind.transport
    ∧ ErrorKind.validation ≠ ErrorKind.transport := by
  refine ⟨?_, ?_, ?_, by decide, by decide, by decide⟩
  · intro msg
    rw [request_fault c opts msg hk]
    exact ⟨rfl, rfl⟩
  · intro body ht hs
    have hse : isErrorStatus body = true := by
      unfold isErrorStatus
      rw [hs]
      simp
    rw [request_service_error c opts status body hk ht hse]
    exact ⟨rfl, rfl⟩
  · intro body schema issues hsch hne hp
    rw [request_parse_failure c opts status body schema issues hk hne hsch hp]
    exact ⟨rfl, errorKind_validation (issuesMessage issues)⟩

/-- Witness for C5: the three triggers at the account-info fixture. -/
theorem c5_witness :
    testClient.apiKey ≠ ""
    ∧ ((testClient.request (fun _ => TransportResult.fault "Network Error") accountArgs).result
        = Except.error (Thrown.premiumizeError ("API request failed: " ++ "Network Error")
            (ErrPayload.axiosFault "Network Error"))
      ∧ (Thrown.premiumizeError ("API request failed: " ++ "Network Error")
          (ErrPayload.axiosFault "Network Error")).errorKind = ErrorKind.transport)
    ∧ ((testClient.request (fun _ => TransportResult.ok ⟨400, errorBody⟩) accountArgs).result
        = Except.error (Thrown.premiumizeError (serviceMessage errorBody)
            (ErrPayload.jsonBody errorBody))
      ∧ (Thrown.premiumizeError (serviceMessage errorBody)
          (ErrPayload.jsonBody errorBody)).errorKind = ErrorKind.service)
    ∧ ((testClient.request (fun _ => TransportResult.ok ⟨200, badAccountBody⟩) accountArgs).result
        = Except.error (Thrown.jsError
            ("API response validation failed: " ++ issuesMessage accountIssues))
      ∧ (Thrown.jsError
          ("API response validation failed: " ++ issuesMessage accountIssues)).errorKind
        = ErrorKind.validation) :=
  ⟨by decide,
   (c5_failure_kinds_mutually_distinguishable testClient accountArgs 400 (by decide)).1
     "Network Error",
   (c5_failure_kinds_mutually_distinguishable testClient accountArgs 400 (by decide)).2.1
     errorBody (by rfl) (by rfl),
   (c5_failure_kinds_mutually_distinguishable testClient accountArgs 200 (by decide)).2.2.1
     badAccountBody AccountInfoResponse accountIssues (by rfl) (by rfl) (by rfl)⟩

/-- Counterexample to C6 as stated: at a concrete schema-rejected body the
pipeline fails with a validation-kind error that carries no attached payload —
the raw response body is not attached to the thrown error. -/
theorem c6_counterexample_validation_error_has_no_attached_body :
    (testClient.accountInfo (fun _ => TransportResult.ok ⟨200, badAccountBody⟩)).failureKind
        = some ErrorKind.validation
    ∧ (testClient.accountInfo (fun _ => TransportResult.ok ⟨200, badAccountBody⟩)).errorPayload
        = none :=
  ⟨by rfl, by rfl⟩

/-- C6 amended: on a schema rejection the pipeline throws a plain `Error`
whose message is the validation-failure indicator followed by the serialized
structured issues; no payload — in particular not the raw body — is attached
to the error (only the historical `request` variant attached one). -/
theorem c6_amended_validation_error_message_only
    (c : PremiumizeClient) (opts : RequestArguments) (status : Int) (body : Json)
    (schema : Validator) (issues : List ZodIssue)
    (hk : c.apiKey ≠ "") (hsch : opts.schema = some schema)
    (hne : (body.truthy && isErrorStatus body) = false)
    (hp : schema.safeParse body = ParseResult.failure issues) :
    (c.request (fun _ => TransportResult.ok ⟨status, body⟩) opts).result
      = Except.error (Thrown.jsError
          ("API response validation failed: " ++ issuesMessage issues))
    ∧ (Thrown.jsError
        ("API response validation failed: " ++ issuesMessage issues)).internalError = none
    ∧ (Thrown.jsError
        ("API response validation failed: " ++ issuesMessage issues)).errorKind
      = ErrorKind.validation := by
  rw [request_parse_failure c opts status body schema issues hk hne hsch hp]
  exact ⟨rfl, rfl, errorKind_validation (issuesMessage issues)⟩

/-- Witness for C6 amended at the account-info fixture. -/
theorem c6_witness :
    testClient.apiKey ≠ "" ∧ accountArgs.schema = some AccountInfoResponse
    ∧ (badAccountBody.truthy && isErrorStatus badAccountBody) = false
    ∧ AccountInfoResponse.safeParse badAccountBody = ParseResult.failure accountIssues
    ∧ ((testClient.request (fun _ => TransportResult.ok ⟨200, badAccountBody⟩) accountArgs).result
        = Except.error (Thrown.jsError
            ("API response validation failed: " ++ issuesMessage accountIssues))
      ∧ (Thrown.jsError
          ("API response validation failed: " ++ issuesMessage accountIssues)).internalError
        = none
      ∧ (Thrown.jsError
          ("API response validation failed: " ++ issuesMessage accountIssues)).errorKind
        = ErrorKind.validation) :=
  ⟨by decide, by rfl, by rfl, by rfl,
   c6_amended_validation_error_message_only testClient accountArgs 200 badAccountBody
     AccountInfoResponse accountIssues (by decide) (by rfl) (by rfl) (by rfl)⟩

/-- C7: construction scrubs the public config's `apiKey` to the empty string
while holding the raw key privately, and no operation mutates the client state
(the config is frozen and never reassigned). -/
theorem c7_config_scrubbed_and_immutable :
    (∀ cfg : PremiumizeConfig,
      (PremiumizeClient.ofConfig cfg).config.apiKey = ""
      ∧ (PremiumizeClient.ofConfig cfg).apiKey = cfg.apiKey)
    ∧ (∀ (c : PremiumizeClient) (transport : TransportCall → TransportResult)
        (opts : RequestArguments),
      (c.requestSt transport opts).2 = c) :=
  ⟨fun _ => ⟨rfl, rfl⟩, fun _ _ _ => rfl⟩

/-- C8: with `id` absent from a `listFolder` request, the wire parameter map
handed to the transport has no `id` key at all (neither an empty-string nor an
`undefined` value is sent), while the credential is always present under the
fixed key `apikey`; an absent `includebreadcrumbs` is likewise omitted and a
supplied one is serialized. -/
theorem c8_absent_optional_param_omitted
    (c : PremiumizeClient) (transport : TransportCall → TransportResult)
    (b : Option Bool) (hk : c.apiKey ≠ "") :
    (c.listFolder transport { id := none, includebreadcrumbs := b }).transportCalls
      = [{ method := HttpMethod.get, endpoint := "/folder/list",
           params := ("apikey", c.apiKey) :: breadcrumbParams b }]
    ∧ ∀ call ∈ (c.listFolder transport { id := none, includebreadcrumbs := b }).transportCalls,
        call.params.all (fun kv => kv.1 != "id") = true
        ∧ ("apikey", c.apiKey) ∈ call.params := by
  have hcall := request_transportCalls c transport
    { endpoint := "/folder/list"
      params :=
        [("id", JsParam.ofOption ((none : Option String).map Json.str)),
         ("includebreadcrumbs", JsParam.ofOption (b.map Json.bool))]
      schema := some ListFolderResponse
      method := none } hk
  have hparams : requestCall c
      { endpoint := "/folder/list"
        params :=
          [("id", JsParam.ofOption ((none : Option String).map Json.str)),
           ("includebreadcrumbs", JsParam.ofOption (b.map Json.bool))]
        schema := some ListFolderResponse
        method := none }
      = { method := HttpMethod.get, endpoint := "/folder/list",
          params := ("apikey", c.apiKey) :: breadcrumbParams b } := by
    cases b with
    | none =>
      simp [requestCall, jsSpread, serializeParams, JsParam.ofOption, Json.displayString,
        breadcrumbParams]
    | some bb =>
      simp [requestCall, jsSpread, serializeParams, JsParam.ofOption, Json.displayString,
        breadcrumbParams]
  have hmain :
      (c.listFolder transport { id := none, includebreadcrumbs := b }).transportCalls
        = [{ method := HttpMethod.get, endpoint := "/folder/list",
             params := ("apikey", c.apiKey) :: breadcrumbParams b }] := by
    unfold PremiumizeClient.listFolder
    rw [hcall, hparams]
  refine ⟨hmain, ?_⟩
  intro call hc
  rw [hmain] at hc
  simp only [List.mem_singleton] at hc
  subst hc
  cases b with
  | none => exact ⟨by simp [breadcrumbParams], by simp [breadcrumbParams]⟩
  | some bb => exact ⟨by simp [breadcrumbParams], by simp [breadcrumbParams]⟩

/-- Witness for C8 at the test client with `includebreadcrumbs := false`. -/
theorem c8_witness :
    testClient.apiKey ≠ ""
    ∧ ((testClient.listFolder (fun _ => TransportResult.ok ⟨200, errorBody⟩)
          { id := none, includebreadcrumbs := some false }).transportCalls
        = [{ method := HttpMethod.get, endpoint := "/folder/list",
             params := ("apikey", testClient.apiKey) :: breadcrumbParams (some false) }]
      ∧ ∀ call ∈ (testClient.listFolder (fun _ => TransportResult.ok ⟨200, errorBody⟩)
            { id := none, includebreadcrumbs := some false }).transportCalls,
          call.params.all (fun kv => kv.1 != "id") = true
          ∧ ("apikey", testClient.apiKey) ∈ call.params) :=
  ⟨by decide,
   c8_absent_optional_param_omitted testClient (fun _ => TransportResult.ok ⟨200, errorBody⟩)
     (some false) (by decide)⟩

/-- C9: the catch-handler classification is idempotent — an error that is
already classified (any non-axios `Thrown`) passes through unchanged, with the
same kind, and reclassifying a classified error is a no-op. -/
theorem c9_classification_idempotent :
    (∀ e : Thrown, classifyCaught (TryError.thrown e) = e)
    ∧ (∀ x : TryError,
        classifyCaught (TryError.thrown (classifyCaught x)) = classifyCaught x)
    ∧ (∀ e : Thrown, (classifyCaught (TryError.thrown e)).errorKind = e.errorKind) :=
  ⟨fun _ => rfl, fun _ => rfl, fun _ => rfl⟩

/-- C10: the redactor output is exactly
`s.slice(0, h) ++ "..." ++ s.slice(-h)` for `h = ⌊|s|·p⌋`; at the default
fraction an even-length secret is split into its two halves — which
concatenate back to the whole secret — and a 1-character secret is fully
revealed because `slice(-0)` yields the whole string. -/
theorem c10_obfuscation_reveals_slices :
    (∀ (s : String) (p : ℚ),
      obfuscateString s p
        = jsSlice s 0 ⌊(s.length : ℚ) * p⌋ ++ "..."
          ++ jsSliceFrom s (-⌊(s.length : ℚ) * p⌋))
    ∧ (∀ s : String, s.length % 2 = 0 →
        obfuscateString s (1/2)
          = String.mk (s.data.take (s.length / 2)) ++ "..."
            ++ String.mk (s.data.drop (s.length / 2))
        ∧ String.mk (s.data.take (s.length / 2)) ++ String.mk (s.data.drop (s.length / 2)) = s)
    ∧ (∀ s : String, s.length = 1 → obfuscateString s (1/2) = "..." ++ s) := by
  refine ⟨fun s p => rfl, ?_, ?_⟩
  · intro s hev
    have heq := obfuscate_eq_of_floor s (1/2) (s.length / 2) (floor_half s.length)
    constructor
    · rw [heq]
      congr 1
      congr 1
      by_cases hz : s.length / 2 = 0
      · rw [if_pos hz, hz, List.drop_zero]
      · rw [if_neg hz, show s.length - s.length / 2 = s.length / 2 by omega]
    · show String.mk (s.data.take (s.length / 2) ++ s.data.drop (s.length / 2)) = s
      rw [List.take_append_drop]
  · intro s h1
    have heq := obfuscate_eq_of_floor s (1/2) (s.length / 2) (floor_half s.length)
    have hz : s.length / 2 = 0 := by omega
    rw [heq, hz]
    rw [if_pos rfl]
    show ("" : String) ++ "..." ++ String.mk s.data = "..." ++ s
    rfl

/-- Witness for C10 at an even-length and a 1-character secret. -/
theorem c10_witness :
    "secret".length % 2 = 0
    ∧ (obfuscateString "secret" (1/2)
        = String.mk ("secret".data.take ("secret".length / 2)) ++ "..."
          ++ String.mk ("secret".data.drop ("secret".length / 2)))
    ∧ "k".length = 1
    ∧ obfuscateString "k" (1/2) = "..." ++ "k" :=
  ⟨by decide, (c10_obfuscation_reveals_slices.2.1 "secret" (by decide)).1,
   by decide, c10_obfuscation_reveals_slices.2.2 "k" (by decide)⟩

end Premiumize
